import Mathlib

/-!
Shallow embedding of the calllock pipecat agent (src/pipecat-agent/src/calllock)
and proofs about the spec's claims.

Conventions of the embedding:
* Python `str` is Lean `String`; byte lengths are `String.length` (all strings
  that the code measures are `json.dumps` output with the default
  `ensure_ascii=True`, hence pure ASCII, where UTF-8 byte count = char count).
* Python float clock values (`time.monotonic()`, `time.time()`) are `ℚ`.
* Regex character class `\w` is modelled by its ASCII fragment
  (letters, digits, underscore), and `str.lower` by ASCII lowering; every
  keyword in the source and every input used in a theorem is ASCII.
* A Python attribute that the class does not initialise is an `Option` field
  defaulting to `none`; reading it while `none` is an `AttributeError`.
-/

namespace Calllock

/-! ### Character and string helpers (ASCII models of Python primitives) -/

/-- ASCII fragment of Python's regex `\w` (word character). -/
def isWordChar (c : Char) : Bool := c.isAlphanum || c == '_'

/-- ASCII letter, Python regex `[a-zA-Z]`. -/
def isAsciiAlpha (c : Char) : Bool := c.isAlpha

/-- Python `str.lower()` restricted to ASCII. -/
def pyLower (s : String) : List Char := s.data.map Char.toLower

/-- Python whitespace stripped by `str.strip()` (ASCII fragment). -/
def isPyWhitespace (c : Char) : Bool :=
  c == ' ' || c == '\t' || c == '\n' || c == '\r' || c == '\x0b' || c == '\x0c'

/-- Python `str.strip()` on the character list. -/
def pyStripChars (l : List Char) : List Char :=
  ((l.dropWhile isPyWhitespace).reverse.dropWhile isPyWhitespace).reverse

/-- Python `str.strip()`. -/
def pyStrip (s : String) : String := String.mk (pyStripChars s.data)

/-- Whether `sub` occurs as a contiguous sublist of `l` (Python `sub in s`). -/
def listContainsSub (l sub : List Char) : Bool :=
  match l with
  | [] => sub.isEmpty
  | _ :: rest => sub.isPrefixOf l || listContainsSub rest sub

/-- Python `a in b` for strings. -/
def strContains (s sub : String) : Bool := listContainsSub s.data sub.data

/-- The word-character status of an optional neighbouring character
(out of bounds counts as a non-word character). -/
def optWord : Option Char → Bool
  | none => false
  | some c => isWordChar c

/-- Regex `\b` between a left and a right character. -/
def boundaryBetween (l r : Option Char) : Bool := optWord l != optWord r

/-- Scan of `re.search(rf"\b{re.escape(kw)}\b", text)`: `prev` is the character
just before the current position. `kw` is matched literally (`re.escape`). -/
def searchWordFrom (kw : List Char) (prev : Option Char) : List Char → Bool
  | [] => false
  | c :: rest =>
    (kw.isPrefixOf (c :: rest)
      && boundaryBetween prev kw.head?
      && boundaryBetween kw.getLast? ((c :: rest).drop kw.length).head?)
    || searchWordFrom kw (some c) rest

/-- Whole-word occurrence of keyword `kw` in (already lowered) text. -/
def hasWholeWord (text kw : List Char) : Bool := searchWordFrom kw none text

/-- `match_any_keyword` from validation.py: lower the text, then look for any
keyword as a whole word. Python iterates a `set`; `any` over it does not
depend on the order, so a list in source order is used. -/
def match_any_keyword (text : String) (keywords : List String) : Bool :=
  let lower := pyLower text
  keywords.any (fun kw => hasWholeWord lower kw.data)

/-! ### Keyword tables from validation.py -/

def SENTINEL_VALUES : List String :=
  ["not provided", "n/a", "na", "unknown", "none", "tbd",
   "\x7b\x7bcustomer_name\x7d\x7d", "\x7b\x7bzip_code\x7d\x7d",
   "\x7b\x7bservice_address\x7d\x7d",
   "auto", "customer_name", "service_address"]

def SERVICE_KEYWORDS : List String :=
  ["ac", "heat", "furnace", "cooling", "heating", "broken", "noise",
   "leak", "thermostat", "unit", "system", "not working", "appointment",
   "booking", "schedule", "service", "someone to come out", "repair",
   "maintenance", "hvac", "air conditioning", "compressor", "duct",
   "not cooling", "not heating", "won't turn on", "stopped working"]

def NON_SERVICE_KEYWORDS : List String :=
  ["billing", "bill", "charge", "payment", "warranty", "invoice",
   "vendor", "supplier", "selling", "partnership", "parts supplier",
   "hiring", "job", "apply", "position", "employment",
   "wrong number"]

def FOLLOW_UP_KEYWORDS : List String :=
  ["following up", "called before", "waiting for callback",
   "checking on", "any update", "called earlier", "still waiting"]

def MANAGE_BOOKING_KEYWORDS : List String :=
  ["my appointment", "reschedule", "cancel my", "cancel the",
   "change my appointment", "move my appointment"]

def SAFETY_KEYWORDS : List String :=
  ["gas", "burning", "smoke", "co detector", "carbon monoxide", "sparks", "fire"]

def SAFETY_RETRACTION_KEYWORDS : List String :=
  ["never mind", "but don't worry", "actually no", "not the issue",
   "forget i said", "i'm fine", "we're okay", "no emergency",
   "that's not it", "not really"]

def HIGH_TICKET_POSITIVE : List String :=
  ["new system", "new unit", "new ac", "new furnace",
   "replacement", "replace", "quote", "estimate",
   "how much for a new", "cost of a new",
   "upgrade", "whole new", "brand new", "installing a new"]

def HIGH_TICKET_NEGATIVE : List String :=
  ["broken", "not working", "stopped working", "won't turn on",
   "cover", "part", "piece", "component",
   "noise", "leak", "smell", "drip",
   "tune-up", "check", "maintenance", "filter"]

def CALLBACK_REQUEST_KEYWORDS : List String :=
  ["call me back", "callback", "just call", "have someone call",
   "have the owner call", "don't want to schedule"]

/-- `WORD_TO_DIGIT` from validation.py. -/
def WORD_TO_DIGIT : List (String × String) :=
  [("zero", "0"), ("oh", "0"), ("o", "0"),
   ("one", "1"), ("two", "2"), ("three", "3"), ("four", "4"),
   ("five", "5"), ("six", "6"), ("seven", "7"), ("eight", "8"), ("nine", "9")]

/-! ### words_to_digits -/

/-- Tokenizer of `re.findall(r"[a-zA-Z]+|\d", text.lower())`: maximal ASCII
letter runs and single digits, other characters skipped. `run` accumulates
the current letter run in reverse; it is emitted when a non-letter arrives
or the input ends. -/
def findallTokensAux (run : List Char) : List Char → List (List Char)
  | [] => if run = [] then [] else [run.reverse]
  | c :: rest =>
    if isAsciiAlpha c then
      findallTokensAux (c :: run) rest
    else
      (if run = [] then [] else [run.reverse]) ++
        (if c.isDigit then [c] :: findallTokensAux [] rest else findallTokensAux [] rest)

/-- All tokens of `re.findall(r"[a-zA-Z]+|\d", ...)` over a character list. -/
def findallTokens (l : List Char) : List (List Char) := findallTokensAux [] l

/-- `words_to_digits` from validation.py. A single-digit token always passes
`tok.isdigit()`; a letter-run token never does. -/
def words_to_digits (text : String) : String :=
  let tokens := findallTokens (pyLower text)
  String.join (tokens.filterMap (fun tok =>
    match WORD_TO_DIGIT.lookup (String.mk tok) with
    | some d => some d
    | none => if tok.all Char.isDigit && !tok.isEmpty then some (String.mk tok) else none))

/-! ### Validators from validation.py -/

/-- `validate_zip`: strip, then accept exactly five ASCII digits
(`re.match(r"^\d{5}$", cleaned)`). The Python parameter may be `None`;
the embedding uses `""` for that falsy case. -/
def validate_zip (value : String) : String :=
  if value = "" then ""
  else
    let cleaned := pyStrip value
    if cleaned.length = 5 && cleaned.data.all Char.isDigit then cleaned else ""

/-- `validate_name` from validation.py. -/
def validate_name (value : String) : String :=
  if value = "" then ""
  else
    let cleaned := pyStrip value
    if SENTINEL_VALUES.contains (String.mk (pyLower cleaned)) then ""
    else if cleaned.length ≥ 7 &&
        cleaned.data.all (fun c => c.isDigit || c == '+' || c == '-' || c == '(' || c == ')' || c == ' ') then
      ""
    else if strContains cleaned "\x7b\x7b" || strContains cleaned "\x7d\x7d" then ""
    else cleaned

/-- `validate_address` from validation.py: strip; reject sentinels, a bare
word "or" (`re.search(r"\bor\b", cleaned, re.IGNORECASE)`), strings without
a letter, and strings shorter than 5 characters. There is no word-digit
normalization step in this function. -/
def validate_address (value : String) : String :=
  if value = "" then ""
  else
    let cleaned := pyStrip value
    if SENTINEL_VALUES.contains (String.mk (pyLower cleaned)) then ""
    else if hasWholeWord (pyLower cleaned) "or".data then ""
    else if !cleaned.data.any isAsciiAlpha then ""
    else if cleaned.length < 5 then ""
    else cleaned

/-- `is_service_area` from validation.py. -/
def is_service_area (zip_code : String) : Bool :=
  let validated := validate_zip zip_code
  if validated = "" then false else "787".data.isPrefixOf validated.data

/-- `classify_intent` from validation.py. -/
def classify_intent (text : String) : String :=
  if match_any_keyword text MANAGE_BOOKING_KEYWORDS then "manage_booking"
  else if match_any_keyword text FOLLOW_UP_KEYWORDS then "follow_up"
  else if match_any_keyword text NON_SERVICE_KEYWORDS then "non_service"
  else "service"

/-- `detect_safety_emergency` from validation.py. -/
def detect_safety_emergency (text : String) : Bool :=
  if !match_any_keyword text SAFETY_KEYWORDS then false
  else !match_any_keyword text SAFETY_RETRACTION_KEYWORDS

/-- `detect_high_ticket` from validation.py. -/
def detect_high_ticket (text : String) : Bool :=
  if !match_any_keyword text HIGH_TICKET_POSITIVE then false
  else !match_any_keyword text HIGH_TICKET_NEGATIVE

/-- `detect_callback_request` from validation.py. -/
def detect_callback_request (text : String) : Bool :=
  match_any_keyword text CALLBACK_REQUEST_KEYWORDS

/-! ### states.py -/

/-- The `State` enum from states.py. -/
inductive State
  | WELCOME | NON_SERVICE | LOOKUP | FOLLOW_UP | MANAGE_BOOKING
  | SAFETY | SAFETY_EXIT | SERVICE_AREA | DISCOVERY | URGENCY
  | URGENCY_CALLBACK | PRE_CONFIRM | BOOKING | BOOKING_FAILED | CONFIRM | CALLBACK
deriving DecidableEq

/-- The string `value` of each `State` member. -/
def State.value : State → String
  | .WELCOME => "welcome"
  | .NON_SERVICE => "non_service"
  | .LOOKUP => "lookup"
  | .FOLLOW_UP => "follow_up"
  | .MANAGE_BOOKING => "manage_booking"
  | .SAFETY => "safety"
  | .SAFETY_EXIT => "safety_exit"
  | .SERVICE_AREA => "service_area"
  | .DISCOVERY => "discovery"
  | .URGENCY => "urgency"
  | .URGENCY_CALLBACK => "urgency_callback"
  | .PRE_CONFIRM => "pre_confirm"
  | .BOOKING => "booking"
  | .BOOKING_FAILED => "booking_failed"
  | .CONFIRM => "confirm"
  | .CALLBACK => "callback"

/-! ### session.py -/

/-- One entry of `CallSession.transcript_log` (an untyped dict list in the
source; the state machine and the functions embedded here never read it). -/
structure TranscriptEntry where
  role : String := ""
  content : String := ""
  state : String := ""
  timestamp : ℚ := 0
deriving DecidableEq

/-- One entry of `CallSession.conversation_history`. -/
structure ChatMsg where
  role : String := ""
  content : String := ""
deriving DecidableEq

/-- The `CallSession` dataclass from session.py, field for field. The last two
fields are NOT declared by the dataclass: Python code elsewhere assigns
`session.agent_has_responded` (processor.py, state_machine.py) and
`session.confirmation_message` (state_machine.py) as new object attributes.
They default to `none` = attribute absent; reading an absent attribute raises
`AttributeError`. -/
@[ext]
structure Session where
  phone_number : String
  state : State := .WELCOME
  caller_known : Bool := false
  customer_name : String := ""
  zip_code : String := ""
  service_address : String := ""
  has_appointment : Bool := false
  appointment_date : String := ""
  appointment_time : String := ""
  appointment_uid : String := ""
  callback_promise : String := ""
  caller_intent : String := ""
  problem_description : String := ""
  equipment_type : String := ""
  problem_duration : String := ""
  is_third_party : Bool := false
  site_contact_name : String := ""
  site_contact_phone : String := ""
  preferred_time : String := ""
  urgency_tier : String := "routine"
  lead_type : String := ""
  caller_confirmed : Bool := false
  booking_confirmed : Bool := false
  booking_attempted : Bool := false
  booked_time : String := ""
  appointment_id : String := ""
  callback_created : Bool := false
  callback_attempts : Nat := 0
  callback_type : String := "service"
  call_sid : String := ""
  start_time : ℚ := 0
  transcript_log : List TranscriptEntry := []
  turn_count : Nat := 0
  state_turn_count : Nat := 0
  conversation_history : List ChatMsg := []
  agent_has_responded : Option Bool := none
  confirmation_message : Option String := none
deriving DecidableEq

/-- The session built by `create_pipeline` (pipeline.py lines 52-54):
`CallSession(phone_number=caller_phone)` followed by assignments to
`call_sid` and `start_time`. No other field or attribute is touched before
the first transcription is processed. -/
def freshPipelineSession (phone callSid : String) (t0 : ℚ) : Session :=
  { phone_number := phone, call_sid := callSid, start_time := t0 }

/-! ### state_machine.py -/

def MAX_TURNS_PER_STATE : Nat := 5
def MAX_TURNS_PER_CALL : Nat := 30

/-- The `Action` dataclass from state_machine.py. `tool_args` is an untyped
dict in the source and is never populated by any handler. -/
structure Action where
  speak : String := ""
  call_tool : String := ""
  tool_args : List (String × String) := []
  end_call : Bool := false
  needs_llm : Bool := true
deriving DecidableEq

/-- Module-level keyword constants of state_machine.py (frozensets; `any`
over them does not depend on iteration order). -/
def SCHEDULE_SIGNALS : List String := ["yes", "yeah", "schedule", "book", "sure", "go ahead"]

def NEW_ISSUE_SIGNALS : List String :=
  ["new issue", "something else", "different problem", "also", "another"]

def NO_SIGNALS : List String :=
  ["no", "nope", "nah", "nothing like that", "we're fine",
   "all good", "just not cooling", "just not heating"]

def URGENT_SIGNALS : List String :=
  ["today", "asap", "right away", "as soon as", "emergency", "right now", "soonest",
   "urgent", "immediately", "earliest", "soon as possible"]

def ROUTINE_SIGNALS : List String := ["whenever", "this week", "next few days", "no rush", "not urgent"]

def TIME_PATTERNS : List String :=
  ["tomorrow", "monday", "tuesday", "wednesday", "thursday",
   "friday", "saturday", "sunday", "morning", "afternoon", "evening",
   "following day", "next day"]

def YES_SIGNALS : List String :=
  ["yes", "yeah", "yep", "sounds right", "sounds good",
   "correct", "that's right", "go ahead"]

def CONFIRM_CLOSE_SIGNALS : List String :=
  ["thanks", "thank you", "bye", "goodbye",
   "that's it", "that's all", "all good", "i'm good", "nothing else"]

/-- `_transition` from state_machine.py: set the state, reset the per-state
turn counter, clear the agent-responded flag. -/
def transition (s : Session) (new_state : State) : Session :=
  { s with state := new_state, state_turn_count := 0, agent_has_responded := some false }

/-- Python errors the embedded code can raise. -/
inductive PyErr
  | attributeError
  | typeError
deriving DecidableEq

/-- Regex `\b(\d{5})\b` searched in `text` (handler `_handle_service_area`):
first run of exactly five digits delimited by word boundaries. `prev` is the
character before the current position. -/
def searchZipBoundedFrom (prev : Option Char) : List Char → Option (List Char)
  | [] => none
  | c :: rest =>
    let five := (c :: rest).take 5
    if five.length = 5 && five.all Char.isDigit
        && boundaryBetween prev (some c)
        && boundaryBetween five.getLast? ((c :: rest).drop 5).head? then
      some five
    else
      searchZipBoundedFrom (some c) rest

/-- Regex `(\d{5})` searched anywhere (no boundaries). -/
def searchFiveDigitsFrom : List Char → Option (List Char)
  | [] => none
  | c :: rest =>
    let five := (c :: rest).take 5
    if five.length = 5 && five.all Char.isDigit then some five
    else searchFiveDigitsFrom rest

/-- `_handle_welcome`. -/
def handle_welcome (s : Session) (text : String) : Session × Action :=
  let intent := classify_intent text
  let s := { s with caller_intent := intent }
  if intent = "non_service" then
    (transition s .NON_SERVICE, { needs_llm := true })
  else
    (transition s .LOOKUP, { call_tool := "lookup_caller", needs_llm := false })

/-- `_handle_non_service`. -/
def handle_non_service (s : Session) (text : String) : Session × Action :=
  if match_any_keyword text SCHEDULE_SIGNALS then
    (transition s .SAFETY, { needs_llm := true })
  else (s, { needs_llm := true })

/-- `_handle_lookup`. -/
def handle_lookup (s : Session) (_text : String) : Session × Action :=
  (s, { call_tool := "lookup_caller", needs_llm := false })

/-- `_handle_follow_up`. -/
def handle_follow_up (s : Session) (text : String) : Session × Action :=
  if match_any_keyword text NEW_ISSUE_SIGNALS then
    (transition s .SAFETY, { needs_llm := true })
  else if match_any_keyword text SCHEDULE_SIGNALS then
    (transition s .SAFETY, { needs_llm := true })
  else (s, { needs_llm := true })

/-- `_handle_manage_booking`. -/
def handle_manage_booking (s : Session) (text : String) : Session × Action :=
  if match_any_keyword text NEW_ISSUE_SIGNALS then
    (transition s .SAFETY, { needs_llm := true })
  else (s, { needs_llm := true })

/-- `_handle_safety`. -/
def handle_safety (s : Session) (text : String) : Session × Action :=
  if detect_safety_emergency text then
    (transition s .SAFETY_EXIT, { needs_llm := true })
  else if match_any_keyword text NO_SIGNALS then
    (transition s .SERVICE_AREA, { needs_llm := true })
  else (s, { needs_llm := true })

/-- `_handle_safety_exit`. -/
def handle_safety_exit (s : Session) (_text : String) : Session × Action :=
  (s, { end_call := true, needs_llm := true })

/-- `_handle_service_area`: try to extract a ZIP (regex on the raw text, then
`words_to_digits` fallback), then route on service area membership. -/
def handle_service_area (s : Session) (text : String) : Session × Action :=
  let s :=
    if s.zip_code = "" then
      let s1 :=
        match searchZipBoundedFrom none text.data with
        | some z => { s with zip_code := validate_zip (String.mk z) }
        | none => s
      if s1.zip_code = "" then
        match searchFiveDigitsFrom (words_to_digits text).data with
        | some z => { s1 with zip_code := validate_zip (String.mk z) }
        | none => s1
      else s1
    else s
  if s.zip_code ≠ "" then
    if is_service_area s.zip_code then
      (transition s .DISCOVERY, { needs_llm := true })
    else
      (transition s .CALLBACK, { needs_llm := true })
  else (s, { needs_llm := true })

/-- `_handle_discovery`. -/
def handle_discovery (s : Session) (_text : String) : Session × Action :=
  let s := { s with customer_name := validate_name s.customer_name,
                    service_address := validate_address s.service_address }
  if s.customer_name ≠ "" && s.problem_description ≠ "" && s.service_address ≠ "" then
    let s := if detect_high_ticket s.problem_description then { s with lead_type := "high_ticket" } else s
    (transition s .URGENCY, { speak := "Got it.", needs_llm := false })
  else (s, { needs_llm := true })

/-- `_handle_urgency`. -/
def handle_urgency (s : Session) (text : String) : Session × Action :=
  if detect_callback_request text then
    (transition s .URGENCY_CALLBACK, { needs_llm := true })
  else if s.lead_type = "high_ticket" then
    (transition s .URGENCY_CALLBACK, { needs_llm := true })
  else if s.has_appointment && match_any_keyword text MANAGE_BOOKING_KEYWORDS then
    (transition s .CALLBACK, { needs_llm := true })
  else if match_any_keyword text URGENT_SIGNALS then
    (transition { s with urgency_tier := "urgent", preferred_time := "soonest available" }
      .PRE_CONFIRM, { needs_llm := true })
  else if match_any_keyword text ROUTINE_SIGNALS then
    (transition { s with urgency_tier := "routine", preferred_time := "soonest available" }
      .PRE_CONFIRM, { needs_llm := true })
  else if match_any_keyword text TIME_PATTERNS then
    (transition { s with urgency_tier := "routine", preferred_time := pyStrip text }
      .PRE_CONFIRM, { needs_llm := true })
  else (s, { needs_llm := true })

/-- `_handle_urgency_callback`. -/
def handle_urgency_callback (s : Session) (_text : String) : Session × Action :=
  if s.lead_type = "high_ticket" then
    (s, { call_tool := "send_sales_lead_alert", needs_llm := true })
  else if !s.callback_created then
    (s, { call_tool := "create_callback", needs_llm := true })
  else (s, { end_call := true, needs_llm := true })

/-- `_handle_pre_confirm`. -/
def handle_pre_confirm (s : Session) (text : String) : Session × Action :=
  if detect_callback_request text then
    (transition s .CALLBACK, { needs_llm := true })
  else if match_any_keyword text YES_SIGNALS then
    (transition { s with caller_confirmed := true, booking_attempted := true } .BOOKING,
      { speak := "Let me check what we've got open.", call_tool := "book_service", needs_llm := true })
  else (s, { needs_llm := true })

/-- `_handle_booking`. -/
def handle_booking (s : Session) (_text : String) : Session × Action :=
  if s.booking_attempted then (s, { needs_llm := false })
  else ({ s with booking_attempted := true }, { call_tool := "book_service", needs_llm := false })

/-- `_handle_booking_failed`. -/
def handle_booking_failed (s : Session) (_text : String) : Session × Action :=
  if !s.callback_created then
    (s, { call_tool := "create_callback", needs_llm := true })
  else (s, { end_call := true, needs_llm := true })

/-- `_handle_confirm`. -/
def handle_confirm (s : Session) (text : String) : Session × Action :=
  if s.state_turn_count < 1 then
    (s, { needs_llm := true })
  else if match_any_keyword text CONFIRM_CLOSE_SIGNALS || pyStrip text = "" then
    (s, { speak := "Alright, thanks for calling ACE Cooling - stay cool out there.",
          end_call := true, needs_llm := false })
  else (s, { end_call := true, needs_llm := true })

/-- `_handle_callback`. -/
def handle_callback (s : Session) (_text : String) : Session × Action :=
  if s.callback_created then (s, { end_call := true, needs_llm := true })
  else if s.callback_attempts ≥ 2 then (s, { end_call := true, needs_llm := true })
  else (s, { call_tool := "create_callback", needs_llm := true })

/-- `getattr(self, f"_handle_{session.state.value}")`: every state has a
handler method, so the dispatch is total. -/
def dispatchHandler (s : Session) (text : String) : Session × Action :=
  match s.state with
  | .WELCOME => handle_welcome s text
  | .NON_SERVICE => handle_non_service s text
  | .LOOKUP => handle_lookup s text
  | .FOLLOW_UP => handle_follow_up s text
  | .MANAGE_BOOKING => handle_manage_booking s text
  | .SAFETY => handle_safety s text
  | .SAFETY_EXIT => handle_safety_exit s text
  | .SERVICE_AREA => handle_service_area s text
  | .DISCOVERY => handle_discovery s text
  | .URGENCY => handle_urgency s text
  | .URGENCY_CALLBACK => handle_urgency_callback s text
  | .PRE_CONFIRM => handle_pre_confirm s text
  | .BOOKING => handle_booking s text
  | .BOOKING_FAILED => handle_booking_failed s text
  | .CONFIRM => handle_confirm s text
  | .CALLBACK => handle_callback s text

/-- `StateMachine.process`. The first statement mutates `turn_count`; the
read of `session.agent_has_responded` then raises `AttributeError` when the
attribute was never assigned, so the error carries the partially mutated
session, as Python's in-place mutation does. -/
def process (s0 : Session) (user_text : String) : Except (PyErr × Session) (Session × Action) :=
  let s1 := { s0 with turn_count := s0.turn_count + 1 }
  match s1.agent_has_responded with
  | none => .error (.attributeError, s1)
  | some responded =>
    let s2 :=
      if responded then
        { s1 with state_turn_count := s1.state_turn_count + 1, agent_has_responded := some false }
      else s1
    if s2.turn_count > MAX_TURNS_PER_CALL then
      .ok (transition s2 .CALLBACK,
        { speak := "I apologize, but let me have someone from the team call you back to help you out.",
          call_tool := "create_callback", end_call := true, needs_llm := false })
    else if s2.state_turn_count > MAX_TURNS_PER_STATE then
      .ok (transition s2 .CALLBACK,
        { speak := "Let me have someone from the team call you back.",
          call_tool := "create_callback", needs_llm := false })
    else
      .ok (dispatchHandler s2 user_text)

/-! ### Tool result handlers from state_machine.py -/

/-- The `upcomingAppointment` sub-dict of a lookup result. `uid` is `Option`
because the source reads `appt.get("uid", appt.get("jobId", ""))`. -/
structure Appointment where
  date : String := ""
  time : String := ""
  uid : Option String := none
  jobId : String := ""
deriving DecidableEq

/-- The keys of a tool result dict that the tool-result handlers read.
Fields used only for truthiness are `Bool`; `.get` with a session-field
default is `Option`. `upcomingAppointment = none` covers both an absent key
and a falsy (empty-dict) value, matching `bool(result.get(...))` and
`if appt and isinstance(appt, dict)`. -/
structure ToolResult where
  found : Bool := false
  customerName : String := ""
  zipCode : String := ""
  address : String := ""
  upcomingAppointment : Option Appointment := none
  callbackPromise : String := ""
  booked : Bool := false
  booking_confirmed : Bool := false
  appointment_time : String := ""
  booking_time : String := ""
  appointmentId : String := ""
  confirmationMessage : String := ""
  error : Bool := false
  action_taken : String := ""
  success : Bool := false
  new_date : Option String := none
  new_time : Option String := none
deriving DecidableEq

/-- `_tool_result_lookup_caller`. -/
def tool_result_lookup_caller (s : Session) (r : ToolResult) : Session :=
  let s := { s with
    caller_known := r.found,
    customer_name := validate_name r.customerName,
    zip_code := validate_zip r.zipCode,
    service_address := validate_address r.address,
    has_appointment := r.upcomingAppointment.isSome,
    callback_promise := r.callbackPromise }
  let s :=
    match r.upcomingAppointment with
    | some appt =>
      { s with appointment_date := appt.date, appointment_time := appt.time,
               appointment_uid := (match appt.uid with | some u => u | none => appt.jobId) }
    | none => s
  if s.caller_intent = "follow_up" then transition s .FOLLOW_UP
  else if s.caller_intent = "manage_booking" && s.has_appointment then transition s .MANAGE_BOOKING
  else transition s .SAFETY

/-- `_tool_result_book_service`. `result.get("appointment_time") or
result.get("booking_time", "")` picks `appointment_time` when truthy. -/
def tool_result_book_service (s : Session) (r : ToolResult) : Session :=
  if r.booked || r.booking_confirmed then
    transition { s with
      booking_confirmed := true,
      booked_time := (if r.appointment_time ≠ "" then r.appointment_time else r.booking_time),
      appointment_id := r.appointmentId,
      confirmation_message := some r.confirmationMessage } .CONFIRM
  else
    transition { s with booking_confirmed := false } .BOOKING_FAILED

/-- `_tool_result_create_callback`. -/
def tool_result_create_callback (s : Session) (r : ToolResult) : Session :=
  if r.error then
    { s with callback_created := false, callback_attempts := s.callback_attempts + 1 }
  else
    { s with callback_created := true }

/-- `_tool_result_manage_appointment`. -/
def tool_result_manage_appointment (s : Session) (r : ToolResult) : Session :=
  let s :=
    if r.action_taken = "cancel" then { s with has_appointment := false }
    else if r.action_taken = "reschedule" && r.success then
      { s with
        appointment_date := (match r.new_date with | some d => d | none => s.appointment_date),
        appointment_time := (match r.new_time with | some t => t | none => s.appointment_time) }
    else s
  if r.success then transition s .CONFIRM else s

/-- `StateMachine.handle_tool_result`: dispatch on
`getattr(self, f"_tool_result_{tool}")`, a no-op for unknown tool names
(`_tool_result_send_sales_lead_alert` is itself `pass`). -/
def handle_tool_result (s : Session) (tool : String) (r : ToolResult) : Session :=
  if tool = "lookup_caller" then tool_result_lookup_caller s r
  else if tool = "book_service" then tool_result_book_service s r
  else if tool = "create_callback" then tool_result_create_callback s r
  else if tool = "send_sales_lead_alert" then s
  else if tool = "manage_appointment" then tool_result_manage_appointment s r
  else s

/-- One operation on a session: a processed user turn or a tool result. -/
inductive Op
  | user (text : String)
  | tool (name : String) (r : ToolResult)

/-- Run one operation; a user turn can raise `AttributeError` (see `process`). -/
def stepOp (s : Session) : Op → Except (PyErr × Session) Session
  | .user text => (process s text).map Prod.fst
  | .tool name r => .ok (handle_tool_result s name r)

/-! ### circuit_breaker.py -/

/-- The `CircuitBreaker` dataclass. The monotonic clock is passed explicitly
to the operations that call `time.monotonic()`. -/
structure CircuitBreaker where
  failure_threshold : Nat := 3
  cooldown_seconds : ℚ := 60
  label : String := "service"
  consecutive_failures : Nat := 0
  opened_at : Option ℚ := none
deriving DecidableEq

/-- `CircuitBreaker.should_try`. The Python guard `if self._opened_at and ...`
uses truthiness, under which both `None` and the float `0.0` are falsy. -/
def should_try (cb : CircuitBreaker) (now : ℚ) : Bool :=
  if cb.consecutive_failures < cb.failure_threshold then true
  else
    match cb.opened_at with
    | none => false
    | some t => if t ≠ 0 && now - t ≥ cb.cooldown_seconds then true else false

/-- `CircuitBreaker.record_success`. -/
def record_success (cb : CircuitBreaker) : CircuitBreaker :=
  { cb with consecutive_failures := 0, opened_at := none }

/-- `CircuitBreaker.record_failure`: increment the failure count and stamp the
open time only when the breaker is not already stamped (`_opened_at is None`). -/
def record_failure (cb : CircuitBreaker) (now : ℚ) : CircuitBreaker :=
  let cb := { cb with consecutive_failures := cb.consecutive_failures + 1 }
  if cb.consecutive_failures ≥ cb.failure_threshold && cb.opened_at = none then
    { cb with opened_at := some now }
  else cb

/-! ### dashboard_sync.py and the post-call pipeline (post_call.py) -/

/-- The parameters accepted by `DashboardClient.__init__` (dashboard_sync.py
line 10), `self` excluded. -/
def dashboardClientInitParams : List String := ["webhook_url", "webhook_secret", "timeout"]

/-- The `__init__` parameters that have no default value. -/
def dashboardClientRequiredParams : List String := ["webhook_url", "webhook_secret"]

/-- The keyword arguments `handle_call_ended` passes to `DashboardClient`
(post_call.py lines 199-204). -/
def handleCallEndedClientKwargs : List String :=
  ["jobs_url", "calls_url", "alerts_url", "webhook_secret"]

/-- Python keyword-call check for a call site that passes no positional
arguments: every keyword must name a declared parameter and every parameter
without a default must be supplied, else the call raises `TypeError`. -/
def pyKwCallOk (params required kwargs : List String) : Bool :=
  kwargs.all (fun k => params.contains k) && required.all (fun p => kwargs.contains p)

/-- The parsed JSON body of a jobs-webhook response, restricted to the keys
`handle_call_ended` reads. -/
structure JobResponseBody where
  success : Bool := true
  lead_id : Option String := none
  job_id : Option String := none
deriving DecidableEq

/-- Outcome of one HTTP POST attempt: a response with a status code and
parsed body, or an exception (connection error etc.). -/
inductive HttpOutcome
  | resp (code : Nat) (body : JobResponseBody)
  | exc
deriving DecidableEq

/-- What `DashboardClient.send_job` returns: `resp.json()` on success, or the
`{"success": False, "error": str(e)}` dict after a caught exception (the
error string itself only reaches the log). -/
inductive SendResult
  | json (body : JobResponseBody)
  | errorDict
deriving DecidableEq

/-- `DashboardClient.send_job` run against an oracle giving the outcome of
each successive POST attempt: the source makes exactly one `client.post`,
calls `raise_for_status()` (raises on any non-2xx), and catches every
exception into an error dict. Returns (number of POST attempts, result). -/
def send_job (oracle : Nat → HttpOutcome) : Nat × SendResult :=
  match oracle 0 with
  | .resp code body => if 200 ≤ code && code < 300 then (1, .json body) else (1, .errorDict)
  | .exc => (1, .errorDict)

/-- Modelled from the spec: "POST the job payload to the jobs webhook with one
retry after 2 s on any non-2xx or exception". The retry behaviour the spec
describes, for comparison with `send_job`; no such retry exists in
dashboard_sync.py. -/
def send_job_spec_retry (oracle : Nat → HttpOutcome) : Nat × SendResult :=
  match oracle 0 with
  | .resp code body =>
    if 200 ≤ code && code < 300 then (1, .json body)
    else
      match oracle 1 with
      | .resp code2 body2 => if 200 ≤ code2 && code2 < 300 then (2, .json body2) else (2, .errorDict)
      | .exc => (2, .errorDict)
  | .exc =>
    match oracle 1 with
    | .resp code2 body2 => if 200 ≤ code2 && code2 < 300 then (2, .json body2) else (2, .errorDict)
    | .exc => (2, .errorDict)

/-- post_call.py lines 212-213: `job_result.get("lead_id")` and
`job_result.get("job_id")` when the result is a dict (both branches of
`send_job` return dicts; the error dict lacks the keys). -/
def extract_link_ids : SendResult → Option String × Option String
  | .json b => (b.lead_id, b.job_id)
  | .errorDict => (none, none)

/-- The observable post-call effects after the `DashboardClient` is built
(post_call.py lines 206-248): job POST, call POST, emergency alert for
SAFETY_EXIT, transcript dump to the log. Payload contents are abstracted. -/
inductive PostEffect
  | jobPost
  | callPost
  | alertPost
  | transcriptDump
deriving DecidableEq

/-- Effect order of the body of `handle_call_ended` past client construction. -/
def postCallBodyEffects (s : Session) : List PostEffect :=
  [.jobPost, .callPost] ++ (if s.state = .SAFETY_EXIT then [.alertPost] else []) ++ [.transcriptDump]

/-- The dashboard environment read at the top of `handle_call_ended`. -/
structure DashboardEnv where
  jobs_url : String := ""
  calls_url : String := ""
  alerts_url : String := ""
  webhook_secret : String := ""
  user_email : String := ""
deriving DecidableEq

/-- `handle_call_ended` (post_call.py lines 186-248): return early when the
webhook is not configured; otherwise construct
`DashboardClient(jobs_url=..., calls_url=..., alerts_url=..., webhook_secret=...)`,
which raises `TypeError` when those keywords do not fit
`DashboardClient.__init__(self, webhook_url, webhook_secret, timeout=15.0)`;
only if construction succeeds do the POSTs and the transcript dump run. -/
def handle_call_ended (env : DashboardEnv) (s : Session) : Except PyErr (List PostEffect) :=
  if env.jobs_url = "" || env.webhook_secret = "" then .ok []
  else if pyKwCallOk dashboardClientInitParams dashboardClientRequiredParams
      handleCallEndedClientKwargs then
    .ok (postCallBodyEffects s)
  else
    .error .typeError

/-! ### Background extraction merge (processor.py `_run_extraction`) -/

/-- The extractor output dict (extraction.py asks the LLM for exactly these
keys, each a string, empty when absent). -/
structure Extracted where
  customer_name : String := ""
  problem_description : String := ""
  service_address : String := ""
  zip_code : String := ""
  preferred_time : String := ""
  problem_duration : String := ""
  equipment_type : String := ""
deriving DecidableEq

/-- The merge step of `_run_extraction` (processor.py lines 389-408): only
the four extraction-owned fields are written, each only when the session
field is empty and the extracted value is non-empty. -/
def apply_extraction (s : Session) (e : Extracted) : Session :=
  let s := if s.problem_description = "" && e.problem_description ≠ "" then
    { s with problem_description := e.problem_description } else s
  let s := if s.preferred_time = "" && e.preferred_time ≠ "" then
    { s with preferred_time := e.preferred_time } else s
  let s := if s.equipment_type = "" && e.equipment_type ≠ "" then
    { s with equipment_type := e.equipment_type } else s
  let s := if s.problem_duration = "" && e.problem_duration ≠ "" then
    { s with problem_duration := e.problem_duration } else s
  s

/-- `_run_extraction` with the `extract_fields` LLM call abstracted into an
optional result (`none` covers the falsy `{}` and the short-history guard
result alike): no merge happens unless at least two conversation turns exist
and the extractor returned something. -/
def run_extraction (s : Session) (extracted : Option Extracted) : Session :=
  if s.conversation_history.length < 2 then s
  else
    match extracted with
    | none => s
    | some e => apply_extraction s e

/-! ### Transcript chunking (post_call.py `chunk_transcript_dump`)

The dump dict is modelled by the serialization pieces the function measures:
`headerInner` is the `json.dumps` rendering of the header key/value pairs
(everything except `"entries"`, e.g. `"call_sid": "abc", "phone": "x"`,
empty for an empty header), and each entry is its `json.dumps` string.
`json.dumps` keeps insertion order and `{**header, "entries": es}` puts
`entries` last, so
`json.dumps({**header, "entries": es}) = dumpsChunkPayload headerInner es`.
With the default `ensure_ascii=True` the output is ASCII, so the measured
UTF-8 byte length equals `String.length`. -/

/-- Python `", ".join`. -/
def joinCommaSpace : List String → String
  | [] => ""
  | [e] => e
  | e :: rest => e ++ ", " ++ joinCommaSpace rest

/-- `json.dumps` of `{**header, "entries": [...]}` given the pre-rendered
header pairs and entry strings. -/
def dumpsChunkPayload (headerInner : String) (es : List String) : String :=
  "\x7b" ++ (if headerInner = "" then "" else headerInner ++ ", ") ++
    "\"entries\": " ++ "[" ++ joinCommaSpace es ++ "]" ++ "\x7d"

/-- `len(json.dumps({**header, "entries": []}).encode("utf-8"))`. -/
def baseLen (headerInner : String) : Nat := (dumpsChunkPayload headerInner []).length

/-- The loop of `chunk_transcript_dump`: greedy packing of entries, flushing
the current chunk when it is non-empty and the next entry would push the
tracked size past `max_bytes`. A flush resets the tracked size to
`len(json.dumps({"entries": []}))` = 15 before the entry is appended. -/
def chunkLoop (maxBytes : Nat) : List String → List (List String) → List String → Nat → List (List String)
  | [], chunks, current, _ => if current = [] then chunks else chunks ++ [current]
  | e :: rest, chunks, current, size =>
    let entrySize := e.length + 2
    if current ≠ [] && size + entrySize > maxBytes then
      chunkLoop maxBytes rest (chunks ++ [current]) [e] (baseLen "" + entrySize)
    else
      chunkLoop maxBytes rest chunks (current ++ [e]) (size + entrySize)

/-- The per-chunk entry lists of `chunk_transcript_dump`: the empty-entries
early return produces one chunk with no entries, otherwise the packing loop
runs starting from the measured header size. -/
def chunkEntryLists (headerInner : String) (entries : List String) (maxBytes : Nat) : List (List String) :=
  if entries = [] then [[]]
  else chunkLoop maxBytes entries [] [] (baseLen headerInner)

/-- `chunk_transcript_dump`: render each chunk as
`TRANSCRIPT_DUMP|i/N|<json>`, the first chunk with the header fields,
the rest with `{"entries": [...]}` only. -/
def chunk_transcript_dump (headerInner : String) (entries : List String) (maxBytes : Nat) : List String :=
  let chunks := chunkEntryLists headerInner entries maxBytes
  chunks.enum.map (fun p =>
    "TRANSCRIPT_DUMP|" ++ toString (p.1 + 1) ++ "/" ++ toString chunks.length ++ "|" ++
      dumpsChunkPayload (if p.1 = 0 then headerInner else "") p.2)

/-- The header allowance of the first chunk: how much larger than the bare
`{"entries": []}` skeleton the serialized header pairs make it. -/
def headerExtra (headerInner : String) : Nat :=
  if headerInner = "" then 0 else headerInner.length + 2

/-- Total tracked size contribution of a list of entries
(`entry_size = len(entry_json) + 2` each). -/
def sumSizes (es : List String) : Nat := es.foldr (fun e a => e.length + 2 + a) 0

/-! ### Concrete instances used by counterexamples and witnesses -/

/-- A session at the global turn limit whose per-state counter is also about
to pass the per-state limit. -/
def bothLimitsSession : Session :=
  { phone_number := "+15125551234", state := .SAFETY, turn_count := 30,
    state_turn_count := 5, agent_has_responded := some true }

/-- A session ready for a normal processed turn (agent has not yet responded
since the last increment). -/
def readySession : Session :=
  { phone_number := "+15125551234", agent_has_responded := some false }

/-- Breaker that recorded three failures at monotonic time 1. -/
def openedBreaker : CircuitBreaker :=
  record_failure (record_failure (record_failure {} 1) 1) 1

/-- POST oracle: first attempt returns HTTP 500, a second attempt would
return HTTP 200 with linkage ids. -/
def jobOracleFailThenOk : Nat → HttpOutcome := fun n =>
  if n = 0 then .resp 500 {} else .resp 200 { lead_id := some "lead_1", job_id := some "job_1" }

/-- POST oracle whose first attempt succeeds. -/
def jobOracleOk : Nat → HttpOutcome := fun _ =>
  .resp 200 { lead_id := some "lead_9", job_id := some "job_9" }

/-- A 100-byte serialized transcript entry. -/
def entryShort : String := String.mk (List.replicate 100 'a')

/-- A 300-byte serialized transcript entry: bigger than a 200-byte
`max_bytes` on its own. -/
def entryLong : String := String.mk (List.replicate 300 'b')

/-- Serialized header pairs of a typical dump. -/
def headerSample : String := "\"call_sid\": \"CA123\", \"phone\": \"+15125551234\", \"final_state\": \"confirm\""

/-- Two small serialized entries. -/
def entriesSample : List String := ["\"hello\"", "\"world\""]

/-- A configured dashboard environment. -/
def envSample : DashboardEnv :=
  { jobs_url := "https://app.example.com/api/webhook/jobs",
    calls_url := "https://app.example.com/api/webhook/calls",
    alerts_url := "https://app.example.com/api/webhook/emergency-alerts",
    webhook_secret := "secret-1", user_email := "owner@example.com" }

/-- A session with handler-owned facts already collected. -/
def collectedSession : Session :=
  { phone_number := "+15125551234", state := .DISCOVERY,
    customer_name := "Jonas", zip_code := "78745",
    service_address := "4210 South Lamar Blvd",
    conversation_history := [{ role := "user", content := "hi" }, { role := "assistant", content := "hello" }],
    agent_has_responded := some false }

/-- An extractor output that tries to overwrite every field. -/
def pushyExtraction : Extracted :=
  { customer_name := "Hacker", problem_description := "AC not cooling",
    service_address := "1 Other St", zip_code := "00000",
    preferred_time := "tomorrow", problem_duration := "2 days", equipment_type := "AC" }

/-- A session past the global turn limit. -/
def overLimitSession : Session :=
  { phone_number := "+15125551234", turn_count := 35, agent_has_responded := some false }

/-- The session `stepOp readySession (.tool "create_callback" default)` yields. -/
def readySessionAfterCallback : Session := { readySession with callback_created := true }

/-- Counter discipline of a state handler: the global turn counter is
untouched, and the per-state counter is either reset by a transition or left
alone — in particular it is 0 whenever the state changed. -/
def HandlerCounterSpec (f : Session → String → Session × Action) : Prop :=
  ∀ s t, (f s t).1.turn_count = s.turn_count
    ∧ ((f s t).1.state ≠ s.state → (f s t).1.state_turn_count = 0)
    ∧ ((f s t).1.state_turn_count = 0 ∨ (f s t).1.state_turn_count = s.state_turn_count)

/-- The same discipline for a tool-result handler. -/
def ToolHandlerCounterSpec (g : Session → ToolResult → Session) : Prop :=
  ∀ s r, (g s r).turn_count = s.turn_count
    ∧ ((g s r).state ≠ s.state → (g s r).state_turn_count = 0)
    ∧ ((g s r).state_turn_count = 0 ∨ (g s r).state_turn_count = s.state_turn_count)

/-! ## Theorems -/

/-- Counter discipline of `_handle_welcome`. -/
theorem handle_welcome_counters : HandlerCounterSpec handle_welcome := by
  intro s t
  refine ⟨?_, ?_, ?_⟩ <;>
    · unfold handle_welcome transition
      try dsimp only
      split_ifs <;> simp

/-- Counter discipline of `_handle_non_service`. -/
theorem handle_non_service_counters : HandlerCounterSpec handle_non_service := by
  intro s t
  refine ⟨?_, ?_, ?_⟩ <;>
    · unfold handle_non_service transition
      try dsimp only
      split_ifs <;> simp

/-- Counter discipline of `_handle_lookup`. -/
theorem handle_lookup_counters : HandlerCounterSpec handle_lookup := by
  intro s t
  exact ⟨rfl, fun h => absurd rfl h, Or.inr rfl⟩

/-- Counter discipline of `_handle_follow_up`. -/
theorem handle_follow_up_counters : HandlerCounterSpec handle_follow_up := by
  intro s t
  refine ⟨?_, ?_, ?_⟩ <;>
    · unfold handle_follow_up transition
      try dsimp only
      split_ifs <;> simp

/-- Counter discipline of `_handle_manage_booking`. -/
theorem handle_manage_booking_counters : HandlerCounterSpec handle_manage_booking := by
  intro s t
  refine ⟨?_, ?_, ?_⟩ <;>
    · unfold handle_manage_booking transition
      try dsimp only
      split_ifs <;> simp

/-- Counter discipline of `_handle_safety`. -/
theorem handle_safety_counters : HandlerCounterSpec handle_safety := by
  intro s t
  refine ⟨?_, ?_, ?_⟩ <;>
    · unfold handle_safety transition
      try dsimp only
      split_ifs <;> simp

/-- Counter discipline of `_handle_safety_exit`. -/
theorem handle_safety_exit_counters : HandlerCounterSpec handle_safety_exit := by
  intro s t
  exact ⟨rfl, fun h => absurd rfl h, Or.inr rfl⟩

/-- Counter discipline of `_handle_service_area`. -/
theorem handle_service_area_counters : HandlerCounterSpec handle_service_area := by
  intro s t
  refine ⟨?_, ?_, ?_⟩ <;>
    · unfold handle_service_area transition
      dsimp only
      repeat' split
      all_goals simp

/-- Counter discipline of `_handle_discovery`. -/
theorem handle_discovery_counters : HandlerCounterSpec handle_discovery := by
  intro s t
  refine ⟨?_, ?_, ?_⟩ <;>
    · unfold handle_discovery transition
      try dsimp only
      split_ifs <;> simp

/-- Counter discipline of `_handle_urgency`. -/
theorem handle_urgency_counters : HandlerCounterSpec handle_urgency := by
  intro s t
  refine ⟨?_, ?_, ?_⟩ <;>
    · unfold handle_urgency transition
      try dsimp only
      split_ifs <;> simp

/-- Counter discipline of `_handle_urgency_callback`. -/
theorem handle_urgency_callback_counters : HandlerCounterSpec handle_urgency_callback := by
  intro s t
  refine ⟨?_, ?_, ?_⟩ <;>
    · unfold handle_urgency_callback
      try dsimp only
      split_ifs <;> simp

/-- Counter discipline of `_handle_pre_confirm`. -/
theorem handle_pre_confirm_counters : HandlerCounterSpec handle_pre_confirm := by
  intro s t
  refine ⟨?_, ?_, ?_⟩ <;>
    · unfold handle_pre_confirm transition
      try dsimp only
      split_ifs <;> simp

/-- Counter discipline of `_handle_booking`. -/
theorem handle_booking_counters : HandlerCounterSpec handle_booking := by
  intro s t
  refine ⟨?_, ?_, ?_⟩ <;>
    · unfold handle_booking
      try dsimp only
      split_ifs <;> simp

/-- Counter discipline of `_handle_booking_failed`. -/
theorem handle_booking_failed_counters : HandlerCounterSpec handle_booking_failed := by
  intro s t
  refine ⟨?_, ?_, ?_⟩ <;>
    · unfold handle_booking_failed
      try dsimp only
      split_ifs <;> simp

/-- Counter discipline of `_handle_confirm`. -/
theorem handle_confirm_counters : HandlerCounterSpec handle_confirm := by
  intro s t
  refine ⟨?_, ?_, ?_⟩ <;>
    · unfold handle_confirm
      try dsimp only
      split_ifs <;> simp

/-- Counter discipline of `_handle_callback`. -/
theorem handle_callback_counters : HandlerCounterSpec handle_callback := by
  intro s t
  refine ⟨?_, ?_, ?_⟩ <;>
    · unfold handle_callback
      try dsimp only
      split_ifs <;> simp

/-- Counter discipline of the handler dispatch. -/
theorem dispatchHandler_counters : HandlerCounterSpec dispatchHandler := by
  intro s t
  cases hs : s.state
  case WELCOME =>
    have hd : dispatchHandler s t = handle_welcome s t := by unfold dispatchHandler; rw [hs]
    rw [hd, ← hs]
    exact handle_welcome_counters s t
  case NON_SERVICE =>
    have hd : dispatchHandler s t = handle_non_service s t := by unfold dispatchHandler; rw [hs]
    rw [hd, ← hs]
    exact handle_non_service_counters s t
  case LOOKUP =>
    have hd : dispatchHandler s t = handle_lookup s t := by unfold dispatchHandler; rw [hs]
    rw [hd, ← hs]
    exact handle_lookup_counters s t
  case FOLLOW_UP =>
    have hd : dispatchHandler s t = handle_follow_up s t := by unfold dispatchHandler; rw [hs]
    rw [hd, ← hs]
    exact handle_follow_up_counters s t
  case MANAGE_BOOKING =>
    have hd : dispatchHandler s t = handle_manage_booking s t := by unfold dispatchHandler; rw [hs]
    rw [hd, ← hs]
    exact handle_manage_booking_counters s t
  case SAFETY =>
    have hd : dispatchHandler s t = handle_safety s t := by unfold dispatchHandler; rw [hs]
    rw [hd, ← hs]
    exact handle_safety_counters s t
  case SAFETY_EXIT =>
    have hd : dispatchHandler s t = handle_safety_exit s t := by unfold dispatchHandler; rw [hs]
    rw [hd, ← hs]
    exact handle_safety_exit_counters s t
  case SERVICE_AREA =>
    have hd : dispatchHandler s t = handle_service_area s t := by unfold dispatchHandler; rw [hs]
    rw [hd, ← hs]
    exact handle_service_area_counters s t
  case DISCOVERY =>
    have hd : dispatchHandler s t = handle_discovery s t := by unfold dispatchHandler; rw [hs]
    rw [hd, ← hs]
    exact handle_discovery_counters s t
  case URGENCY =>
    have hd : dispatchHandler s t = handle_urgency s t := by unfold dispatchHandler; rw [hs]
    rw [hd, ← hs]
    exact handle_urgency_counters s t
  case URGENCY_CALLBACK =>
    have hd : dispatchHandler s t = handle_urgency_callback s t := by unfold dispatchHandler; rw [hs]
    rw [hd, ← hs]
    exact handle_urgency_callback_counters s t
  case PRE_CONFIRM =>
    have hd : dispatchHandler s t = handle_pre_confirm s t := by unfold dispatchHandler; rw [hs]
    rw [hd, ← hs]
    exact handle_pre_confirm_counters s t
  case BOOKING =>
    have hd : dispatchHandler s t = handle_booking s t := by unfold dispatchHandler; rw [hs]
    rw [hd, ← hs]
    exact handle_booking_counters s t
  case BOOKING_FAILED =>
    have hd : dispatchHandler s t = handle_booking_failed s t := by unfold dispatchHandler; rw [hs]
    rw [hd, ← hs]
    exact handle_booking_failed_counters s t
  case CONFIRM =>
    have hd : dispatchHandler s t = handle_confirm s t := by unfold dispatchHandler; rw [hs]
    rw [hd, ← hs]
    exact handle_confirm_counters s t
  case CALLBACK =>
    have hd : dispatchHandler s t = handle_callback s t := by unfold dispatchHandler; rw [hs]
    rw [hd, ← hs]
    exact handle_callback_counters s t

/-- Counter discipline of `_tool_result_lookup_caller`. -/
theorem tool_result_lookup_caller_counters : ToolHandlerCounterSpec tool_result_lookup_caller := by
  intro s r
  refine ⟨?_, ?_, ?_⟩ <;>
    · unfold tool_result_lookup_caller transition
      try dsimp only
      repeat' split
      all_goals simp

/-- Counter discipline of `_tool_result_book_service`. -/
theorem tool_result_book_service_counters : ToolHandlerCounterSpec tool_result_book_service := by
  intro s r
  refine ⟨?_, ?_, ?_⟩ <;>
    · unfold tool_result_book_service transition
      try dsimp only
      split_ifs <;> simp

/-- Counter discipline of `_tool_result_create_callback`. -/
theorem tool_result_create_callback_counters : ToolHandlerCounterSpec tool_result_create_callback := by
  intro s r
  refine ⟨?_, ?_, ?_⟩ <;>
    · unfold tool_result_create_callback
      try dsimp only
      split_ifs <;> simp

/-- Counter discipline of `_tool_result_manage_appointment`. -/
theorem tool_result_manage_appointment_counters : ToolHandlerCounterSpec tool_result_manage_appointment := by
  intro s r
  refine ⟨?_, ?_, ?_⟩ <;>
    · unfold tool_result_manage_appointment transition
      try dsimp only
      repeat' split
      all_goals simp

/-- Counter discipline of the tool-result dispatch. -/
theorem handle_tool_result_counters : ∀ (s : Session) (tool : String) (r : ToolResult),
    (handle_tool_result s tool r).turn_count = s.turn_count
    ∧ ((handle_tool_result s tool r).state ≠ s.state →
        (handle_tool_result s tool r).state_turn_count = 0)
    ∧ ((handle_tool_result s tool r).state_turn_count = 0
        ∨ (handle_tool_result s tool r).state_turn_count = s.state_turn_count) := by
  intro s tool r
  unfold handle_tool_result
  split_ifs <;>
    first
    | exact tool_result_lookup_caller_counters s r
    | exact tool_result_book_service_counters s r
    | exact tool_result_create_callback_counters s r
    | exact tool_result_manage_appointment_counters s r
    | exact ⟨rfl, fun h => absurd rfl h, Or.inr rfl⟩

/-- Claim C1: on a freshly constructed pipeline session (only phone number,
call sid and start time set), the first `StateMachine.process` call raises
`AttributeError`: the `CallSession` dataclass declares no
`agent_has_responded` field, yet `process` reads it after incrementing
`turn_count`, before any code path has assigned it. -/
theorem process_fresh_session_raises_attribute_error (phone callSid text : String) (t0 : ℚ) :
    process (freshPipelineSession phone callSid t0) text =
      .error (.attributeError, { freshPipelineSession phone callSid t0 with turn_count := 1 }) := rfl

/-- Claim C2: whenever the jobs webhook URL and webhook secret are configured,
`handle_call_ended` raises `TypeError` while constructing `DashboardClient`
with keywords `jobs_url`, `calls_url`, `alerts_url`, `webhook_secret`, which
do not fit `DashboardClient.__init__(webhook_url, webhook_secret, timeout)`;
consequently no job POST, call POST, emergency alert or transcript dump
effect is produced. -/
theorem handle_call_ended_raises_type_error (env : DashboardEnv) (s : Session)
    (hjobs : env.jobs_url ≠ "") (hsecret : env.webhook_secret ≠ "") :
    handle_call_ended env s = .error .typeError := by
  have hkw : pyKwCallOk dashboardClientInitParams dashboardClientRequiredParams
      handleCallEndedClientKwargs = false := by decide
  simp [handle_call_ended, hjobs, hsecret, hkw]

/-- Witness for C2 at a concretely configured environment. -/
theorem handle_call_ended_raises_type_error_witness :
    handle_call_ended envSample readySession = .error .typeError :=
  handle_call_ended_raises_type_error envSample readySession (by decide) (by decide)

/-- Counterexample to claim C3: `DashboardClient.send_job` makes exactly one
POST attempt and returns the error dict on a 500, whereas the claimed
retry-once policy (`send_job_spec_retry`, modelled from the spec) would make
a second attempt and succeed on this oracle. -/
theorem send_job_differs_from_retry_spec :
    send_job jobOracleFailThenOk = (1, .errorDict)
    ∧ send_job_spec_retry jobOracleFailThenOk =
        (2, .json { lead_id := some "lead_1", job_id := some "job_1" })
    ∧ send_job jobOracleFailThenOk ≠ send_job_spec_retry jobOracleFailThenOk := by
  refine ⟨rfl, rfl, ?_⟩
  decide

/-- Claim C3 (amended): the job POST is attempted exactly once, with no
retry; a non-2xx response or exception is caught into an error dict (nothing
raises out of `send_job`); on a 2xx response `lead_id` and `job_id` are
extracted from the parsed body as post_call.py does. -/
theorem send_job_posts_once (oracle : Nat → HttpOutcome) :
    (send_job oracle).1 = 1
    ∧ (∀ code body, oracle 0 = .resp code body → 200 ≤ code → code < 300 →
        (send_job oracle).2 = .json body
        ∧ extract_link_ids (send_job oracle).2 = (body.lead_id, body.job_id))
    ∧ (∀ code body, oracle 0 = .resp code body → ¬ (200 ≤ code ∧ code < 300) →
        (send_job oracle).2 = .errorDict)
    ∧ (oracle 0 = .exc → (send_job oracle).2 = .errorDict) := by
  refine ⟨?_, ?_, ?_, ?_⟩
  · unfold send_job
    cases h : oracle 0 with
    | resp code body => by_cases hc : (200 ≤ code && code < 300) = true <;> simp [hc]
    | exc => rfl
  · intro code body h h200 h300
    have hc : (200 ≤ code && code < 300) = true := by
      simp only [Bool.and_eq_true, decide_eq_true_eq]
      exact ⟨h200, h300⟩
    unfold send_job
    rw [h]
    simp [hc, extract_link_ids]
  · intro code body h hc
    have hcb : ¬ ((200 ≤ code && code < 300) = true) := by
      simp only [Bool.and_eq_true, decide_eq_true_eq]
      exact hc
    unfold send_job
    rw [h]
    simp [hcb]
  · intro h
    unfold send_job
    rw [h]

/-- Witness for C3 (amended) at a succeeding oracle. -/
theorem send_job_posts_once_witness :
    (send_job jobOracleOk).2 = .json { lead_id := some "lead_9", job_id := some "job_9" }
    ∧ extract_link_ids (send_job jobOracleOk).2 = (some "lead_9", some "job_9") := by
  have h := (send_job_posts_once jobOracleOk).2.1 200
    { lead_id := some "lead_9", job_id := some "job_9" } rfl (by decide) (by decide)
  exact ⟨h.1, h.2⟩

/-- Counterexample to claim C4: after three failures recorded at monotonic
time 1 (threshold 3, cooldown 60) the breaker is half-open at time 61 and
`should_try` is true; recording a further failure at time 61 does NOT reset
the opened-at clock (it stays at 1, because `record_failure` only stamps the
clock when it is `None`), so at time 62 `should_try` is still true — not
false-for-a-full-further-cooldown as claimed. -/
theorem breaker_half_open_failure_does_not_reset_clock :
    should_try openedBreaker 61 = true
    ∧ (record_failure openedBreaker 61).opened_at = some 1
    ∧ (record_failure openedBreaker 61).opened_at ≠ some 61
    ∧ should_try (record_failure openedBreaker 61) 62 = true
    ∧ ¬ ((62 : ℚ) - 61 ≥ 60) := by
  have hob : openedBreaker = { consecutive_failures := 3, opened_at := some 1 } := rfl
  have hrf : record_failure openedBreaker 61 =
      { consecutive_failures := 4, opened_at := some 1 } := rfl
  refine ⟨?_, ?_, ?_, ?_, by norm_num⟩
  · rw [hob]
    simp [should_try]
    norm_num
  · rw [hrf]
  · rw [hrf]
    simp only [Option.some.injEq]
    norm_num
  · rw [hrf]
    simp [should_try]
    norm_num

/-- Claim C4 (amended): in the half-open position (failures ≥ threshold, a
non-zero opened-at stamp, elapsed ≥ cooldown) `should_try` is true; a
recorded failure increments the count but leaves the opened-at clock
unchanged, so `should_try` remains true at any instant whose distance from
the ORIGINAL opening is at least the cooldown; a recorded success resets the
count to 0, clears the clock, and (for a positive threshold) makes
`should_try` true. -/
theorem breaker_half_open_behaviour (cb : CircuitBreaker) (t now now2 : ℚ)
    (hopen : cb.opened_at = some t) (ht : t ≠ 0)
    (hfail : cb.failure_threshold ≤ cb.consecutive_failures)
    (helapsed : cb.cooldown_seconds ≤ now - t) :
    should_try cb now = true
    ∧ (record_failure cb now).opened_at = some t
    ∧ (record_failure cb now).consecutive_failures = cb.consecutive_failures + 1
    ∧ (cb.cooldown_seconds ≤ now2 - t → should_try (record_failure cb now) now2 = true)
    ∧ (record_success cb).consecutive_failures = 0
    ∧ (record_success cb).opened_at = none
    ∧ (0 < cb.failure_threshold → should_try (record_success cb) now2 = true) := by
  have hnotlt : ¬ cb.consecutive_failures < cb.failure_threshold := Nat.not_lt.mpr hfail
  have hnotlt1 : ¬ cb.consecutive_failures + 1 < cb.failure_threshold :=
    Nat.not_lt.mpr (Nat.le_succ_of_le hfail)
  refine ⟨?_, ?_, ?_, ?_, rfl, rfl, ?_⟩
  · simp [should_try, hnotlt, hopen, ht, helapsed]
  · simp [record_failure, hopen]
  · simp [record_failure, hopen]
  · intro h2
    simp [record_failure, hopen, should_try, hnotlt1, ht, h2]
  · intro hpos
    simp [record_success, should_try, hpos]

/-- Witness for C4 (amended) on the concrete opened breaker. -/
theorem breaker_half_open_behaviour_witness :
    should_try openedBreaker 61 = true
    ∧ (record_failure openedBreaker 61).consecutive_failures = 4
    ∧ should_try (record_failure openedBreaker 61) 121 = true
    ∧ should_try (record_success openedBreaker) 62 = true := by
  have h := breaker_half_open_behaviour openedBreaker 1 61 121
    rfl (by norm_num) (by decide)
    (show openedBreaker.cooldown_seconds ≤ 61 - 1 by
      show (60 : ℚ) ≤ 61 - 1
      norm_num)
  exact ⟨h.1, h.2.2.1.trans (by decide),
    h.2.2.2.1 (show openedBreaker.cooldown_seconds ≤ 121 - 1 by
      show (60 : ℚ) ≤ 121 - 1
      norm_num),
    h.2.2.2.2.2.2 (by decide)⟩

/-- Counterexample to claim C5: the code's retraction set does not contain
"we're fine" (it has "we're okay" and "i'm fine"), so an utterance with a
safety keyword and the claimed retraction "we're fine" is still flagged; and
the code's safety set has no bare "CO" keyword (only "co detector" and
"carbon monoxide"), so an utterance containing "CO" as a whole word with no
retraction is NOT flagged. Both contradict the claimed biconditional. -/
theorem detect_safety_emergency_set_mismatch :
    detect_safety_emergency "gas leak but we're fine" = true
    ∧ hasWholeWord (pyLower "gas leak but we're fine") "we're fine".data = true
    ∧ detect_safety_emergency "the CO alarm is going off" = false
    ∧ hasWholeWord (pyLower "the CO alarm is going off") "co".data = true := by decide

/-- Claim C5 (amended): `detect_safety_emergency` returns true exactly when
the text contains a whole-word occurrence of one of the code's safety
keywords (gas, burning, smoke, "co detector", "carbon monoxide", sparks,
fire) and none of the code's ten retraction keywords ("never mind",
"but don't worry", "actually no", "not the issue", "forget i said",
"i'm fine", "we're okay", "no emergency", "that's not it", "not really");
in particular the two quoted examples hold. -/
theorem detect_safety_emergency_spec (text : String) :
    detect_safety_emergency text =
      (match_any_keyword text SAFETY_KEYWORDS
        && !match_any_keyword text SAFETY_RETRACTION_KEYWORDS)
    ∧ detect_safety_emergency "gas heater but never mind" = false
    ∧ detect_safety_emergency "I smell gas" = true := by
  refine ⟨?_, by decide, by decide⟩
  unfold detect_safety_emergency
  cases h : match_any_keyword text SAFETY_KEYWORDS <;> simp [h]

/-- Claim C6: the spec and the repository's own tests
(test_validation.py: "53 Eleven Izzical Road" must validate to
"5311 Izzical Road") require the address validator to normalize leading
word-digits, but `validate_address` contains no such step and returns the
stripped input unchanged. -/
theorem validate_address_does_not_normalize_word_digits :
    validate_address "53 Eleven Izzical Road" = "53 Eleven Izzical Road"
    ∧ "53 Eleven Izzical Road" ≠ "5311 Izzical Road" := by decide

/-- Claim C9: the background-extraction merge leaves `zip_code` untouched,
leaves `customer_name` and `service_address` untouched whenever they were
non-empty (indeed always), and writes only the four extraction-owned fields
`problem_description`, `preferred_time`, `equipment_type`,
`problem_duration`, each only when previously empty and the extracted value
is non-empty. -/
theorem apply_extraction_firewall (s : Session) (e : Extracted) :
    apply_extraction s e = { s with
      problem_description :=
        if s.problem_description = "" && e.problem_description ≠ "" then e.problem_description
        else s.problem_description,
      preferred_time :=
        if s.preferred_time = "" && e.preferred_time ≠ "" then e.preferred_time
        else s.preferred_time,
      equipment_type :=
        if s.equipment_type = "" && e.equipment_type ≠ "" then e.equipment_type
        else s.equipment_type,
      problem_duration :=
        if s.problem_duration = "" && e.problem_duration ≠ "" then e.problem_duration
        else s.problem_duration }
    ∧ (apply_extraction s e).zip_code = s.zip_code
    ∧ (s.customer_name ≠ "" → (apply_extraction s e).customer_name = s.customer_name)
    ∧ (s.service_address ≠ "" → (apply_extraction s e).service_address = s.service_address) := by
  have core : apply_extraction s e = { s with
      problem_description :=
        if s.problem_description = "" && e.problem_description ≠ "" then e.problem_description
        else s.problem_description,
      preferred_time :=
        if s.preferred_time = "" && e.preferred_time ≠ "" then e.preferred_time
        else s.preferred_time,
      equipment_type :=
        if s.equipment_type = "" && e.equipment_type ≠ "" then e.equipment_type
        else s.equipment_type,
      problem_duration :=
        if s.problem_duration = "" && e.problem_duration ≠ "" then e.problem_duration
        else s.problem_duration } := by
    unfold apply_extraction
    dsimp only
    simp only [apply_ite Session.preferred_time, apply_ite Session.equipment_type,
      apply_ite Session.problem_duration, ite_self]
    split_ifs <;> rfl
  refine ⟨core, ?_, fun _ => ?_, fun _ => ?_⟩ <;> rw [core]

/-- Witness for C9: a pushy extractor output cannot move the handler-owned
facts of a collected session. -/
theorem apply_extraction_firewall_witness :
    (apply_extraction collectedSession pushyExtraction).zip_code = "78745"
    ∧ (apply_extraction collectedSession pushyExtraction).customer_name = "Jonas"
    ∧ (apply_extraction collectedSession pushyExtraction).service_address = "4210 South Lamar Blvd" := by
  have h := apply_extraction_firewall collectedSession pushyExtraction
  exact ⟨h.2.1.trans (by decide), (h.2.2.1 (by decide)).trans (by decide),
    (h.2.2.2 (by decide)).trans (by decide)⟩

/-- Counterexample to claim C7: on a session where the incremented
`state_turn_count` (6) exceeds 5 but the incremented `turn_count` (31) also
exceeds 30, the global-limit branch runs first and `process` returns
`end_call = true` — the claim predicted an Action without `end_call` whenever
`state_turn_count` exceeds 5. -/
theorem process_both_limits_counterexample :
    (process bothLimitsSession "hello").toOption.map
        (fun p => (p.1.state, p.1.state_turn_count, p.2.call_tool, p.2.end_call))
      = some (State.CALLBACK, 0, "create_callback", true)
    ∧ bothLimitsSession.state_turn_count + 1 = 6
    ∧ 5 < 6
    ∧ bothLimitsSession.turn_count + 1 = 31 := by decide

/-- Claim C7 (amended): after incrementing the counters, `turn_count` > 30
forces a transition to CALLBACK with tool `create_callback` and
`end_call = true`; when `turn_count` stays within the global limit,
`state_turn_count` > 5 forces the same transition and tool with
`end_call = false` (the global check runs first and takes precedence); and
the per-state counter is incremented only when `agent_has_responded` was true
at entry, so consecutive user fragments without an intervening agent
response count as one exchange. -/
theorem process_turn_limit_policy (s : Session) (t : String) (b : Bool)
    (hb : s.agent_has_responded = some b) :
    (MAX_TURNS_PER_CALL < s.turn_count + 1 →
      (process s t).toOption.map (fun p => (p.1.state, p.2.call_tool, p.2.end_call))
        = some (State.CALLBACK, "create_callback", true))
    ∧ (s.turn_count + 1 ≤ MAX_TURNS_PER_CALL →
       MAX_TURNS_PER_STATE < s.state_turn_count + (if b then 1 else 0) →
      (process s t).toOption.map (fun p => (p.1.state, p.2.call_tool, p.2.end_call))
        = some (State.CALLBACK, "create_callback", false))
    ∧ (∀ s2 a, process s t = .ok (s2, a) →
        s2.state_turn_count = 0
        ∨ s2.state_turn_count = s.state_turn_count + (if b then 1 else 0)) := by
  cases b <;>
    · refine ⟨?_, ?_, ?_⟩
      · intro hgt
        unfold process
        dsimp only
        rw [hb]
        simp only [eq_self_iff_true, Bool.false_eq_true, if_true, if_false]
        rw [if_pos hgt]
        rfl
      · intro hle hstc
        simp only [eq_self_iff_true, Bool.false_eq_true, if_true, if_false] at hstc
        unfold process
        dsimp only
        rw [hb]
        simp only [eq_self_iff_true, Bool.false_eq_true, if_true, if_false]
        rw [if_neg (by omega), if_pos (by omega)]
        rfl
      · intro s2 a h
        simp only [eq_self_iff_true, Bool.false_eq_true, if_true, if_false]
        unfold process at h
        dsimp only at h
        rw [hb] at h
        simp only [eq_self_iff_true, Bool.false_eq_true, if_true, if_false] at h
        split at h
        · simp only [Except.ok.injEq, Prod.mk.injEq] at h
          obtain ⟨h1, -⟩ := h
          subst h1
          exact Or.inl rfl
        · split at h
          · simp only [Except.ok.injEq, Prod.mk.injEq] at h
            obtain ⟨h1, -⟩ := h
            subst h1
            exact Or.inl rfl
          · rw [Except.ok.injEq] at h
            have h1 : _ = s2 := congrArg Prod.fst h
            rw [← h1]
            exact (dispatchHandler_counters _ t).2.2

/-- Witness for C7 (amended) on a session past the global limit. -/
theorem process_turn_limit_policy_witness :
    (process overLimitSession "hi").toOption.map
        (fun p => (p.1.state, p.2.call_tool, p.2.end_call))
      = some (State.CALLBACK, "create_callback", true) :=
  (process_turn_limit_policy overLimitSession "hi" false rfl).1 (by decide)

/-- Claim C8: every `process` or `handle_tool_result` step that returns
leaves `state_turn_count` at 0 whenever it changed the state, and never
decreases `turn_count`. -/
theorem step_counter_invariants (s : Session) (op : Op) (s2 : Session)
    (h : stepOp s op = .ok s2) :
    (s2.state ≠ s.state → s2.state_turn_count = 0) ∧ s.turn_count ≤ s2.turn_count := by
  cases op with
  | tool name r =>
    have hs2 : s2 = handle_tool_result s name r := by
      simpa [stepOp] using h.symm
    subst hs2
    obtain ⟨h1, h2, _⟩ := handle_tool_result_counters s name r
    exact ⟨h2, le_of_eq h1.symm⟩
  | user text =>
    unfold stepOp process at h
    dsimp only at h
    cases hA : s.agent_has_responded with
    | none =>
      rw [hA] at h
      simp [Except.map] at h
    | some b =>
      rw [hA] at h
      cases b <;>
        · simp only [eq_self_iff_true, Bool.false_eq_true, if_true, if_false] at h
          split at h
          · simp only [Except.map, Except.ok.injEq] at h
            subst h
            exact ⟨fun _ => rfl, Nat.le_succ _⟩
          · split at h
            · simp only [Except.map, Except.ok.injEq] at h
              subst h
              exact ⟨fun _ => rfl, Nat.le_succ _⟩
            · simp only [Except.map, Except.ok.injEq] at h
              subst h
              obtain ⟨h1, h2, _⟩ := dispatchHandler_counters _ text
              refine ⟨fun hne => h2 hne, ?_⟩
              rw [h1]
              exact Nat.le_succ _

/-- Witness for C8 on a concrete tool-result step. -/
theorem step_counter_invariants_witness :
    readySession.turn_count ≤ readySessionAfterCallback.turn_count :=
  (step_counter_invariants readySession (.tool "create_callback" {})
    readySessionAfterCallback rfl).2

/-! Helper lemmas for the transcript-chunking claim. -/

theorem sumSizes_append (es : List String) (e : String) :
    sumSizes (es ++ [e]) = sumSizes es + (e.length + 2) := by
  induction es with
  | nil => simp [sumSizes]
  | cons f rest ih =>
    have h1 : sumSizes ((f :: rest) ++ [e]) = f.length + 2 + sumSizes (rest ++ [e]) := rfl
    have h2 : sumSizes (f :: rest) = f.length + 2 + sumSizes rest := rfl
    rw [h1, h2, ih]
    omega

theorem joinCommaSpace_length (es : List String) (hne : es ≠ []) :
    (joinCommaSpace es).length + 2 = sumSizes es := by
  induction es with
  | nil => exact absurd rfl hne
  | cons e rest ih =>
    cases rest with
    | nil => simp [joinCommaSpace, sumSizes]
    | cons f rest2 =>
      have h2 := ih (by simp)
      have h3 : joinCommaSpace (e :: f :: rest2) = e ++ ", " ++ joinCommaSpace (f :: rest2) := rfl
      have h4 : sumSizes (e :: f :: rest2) = e.length + 2 + sumSizes (f :: rest2) := rfl
      rw [h3, h4]
      simp only [String.length_append, (show (", " : String).length = 2 from rfl)]
      omega

theorem baseLen_empty : baseLen "" = 15 := rfl

theorem baseLen_eq (h : String) : baseLen h = 15 + headerExtra h := by
  by_cases hh : h = ""
  · subst hh; rfl
  · unfold baseLen dumpsChunkPayload headerExtra joinCommaSpace
    rw [if_neg hh, if_neg hh]
    simp only [String.length_append, (show ("\x7b" : String).length = 1 from rfl),
      (show (", " : String).length = 2 from rfl),
      (show ("\"entries\": " : String).length = 11 from rfl),
      (show ("[" : String).length = 1 from rfl),
      (show ("]" : String).length = 1 from rfl),
      (show ("\x7d" : String).length = 1 from rfl),
      (show ("" : String).length = 0 from rfl)]
    omega

theorem dumpsChunkPayload_length (h : String) (es : List String) :
    (dumpsChunkPayload h es).length = baseLen h + (joinCommaSpace es).length := by
  unfold baseLen dumpsChunkPayload
  split_ifs <;>
    · simp only [String.length_append,
        (show ("" : String).length = 0 from rfl),
        (show (joinCommaSpace []).length = 0 from rfl)]
      omega

theorem dumpsChunkPayload_length_of_ne (h : String) (es : List String) (hne : es ≠ []) :
    (dumpsChunkPayload h es).length + 2 = baseLen h + sumSizes es := by
  rw [dumpsChunkPayload_length]
  have := joinCommaSpace_length es hne
  omega

theorem chunkLoop_join (mb : Nat) :
    ∀ (rem : List String) (chunks : List (List String)) (current : List String) (size : Nat),
      (chunkLoop mb rem chunks current size).join = chunks.join ++ current ++ rem := by
  intro rem
  induction rem with
  | nil =>
    intro chunks current size
    unfold chunkLoop
    split_ifs with hc
    · subst hc; simp
    · simp
  | cons e rest ih =>
    intro chunks current size
    unfold chunkLoop
    dsimp only
    split_ifs with hc
    · rw [ih]
      simp
    · rw [ih]
      simp

theorem chunkLoop_size_invariant (mb : Nat) (hdr : String) :
    ∀ (rem : List String) (chunks : List (List String)) (current : List String) (size : Nat),
      (∀ e ∈ rem, e.length + 17 ≤ mb) →
      size = (if chunks = [] then baseLen hdr else 15) + sumSizes current →
      (current ≠ [] → size ≤ mb + (if chunks = [] then headerExtra hdr else 0)) →
      (∀ i ce, chunks.get? i = some ce →
        (dumpsChunkPayload (if i = 0 then hdr else "") ce).length
          ≤ mb + (if i = 0 then headerExtra hdr else 0)) →
      ∀ i ce, (chunkLoop mb rem chunks current size).get? i = some ce →
        (dumpsChunkPayload (if i = 0 then hdr else "") ce).length
          ≤ mb + (if i = 0 then headerExtra hdr else 0) := by
  intro rem
  induction rem with
  | nil =>
    intro chunks current size hper hsize hbound hprev i ce hget
    unfold chunkLoop at hget
    split_ifs at hget with hc
    · exact hprev i ce hget
    · by_cases hi : i < chunks.length
      · exact hprev i ce (by rwa [List.get?_append hi] at hget)
      · have hge : chunks.length ≤ i := Nat.le_of_not_lt hi
        rw [List.get?_append_right hge] at hget
        cases hk : i - chunks.length with
        | zero =>
          rw [hk] at hget
          simp only [List.get?] at hget
          cases hget
          have hb := hbound hc
          by_cases hch : chunks = []
          · have hi0 : i = 0 := by
              have hl : chunks.length = 0 := by simp [hch]
              omega
            have hpay := dumpsChunkPayload_length_of_ne hdr current hc
            rw [if_pos hch] at hsize hb
            rw [if_pos hi0, if_pos hi0]
            omega
          · have hlen : 0 < chunks.length := List.length_pos.mpr hch
            have hi0 : ¬ i = 0 := by omega
            have hpay := dumpsChunkPayload_length_of_ne "" current hc
            rw [baseLen_empty] at hpay
            rw [if_neg hch] at hsize hb
            rw [if_neg hi0, if_neg hi0]
            omega
        | succ n =>
          rw [hk] at hget
          simp at hget
  | cons e rest ih =>
    intro chunks current size hper hsize hbound hprev i ce hget
    unfold chunkLoop at hget
    dsimp only at hget
    split_ifs at hget with hc
    · simp only [Bool.and_eq_true, decide_eq_true_eq] at hc
      obtain ⟨hcne, hover⟩ := hc
      refine ih (chunks ++ [current]) [e] (baseLen "" + (e.length + 2)) ?_ ?_ ?_ ?_ i ce hget
      · intro f hf
        exact hper f (List.mem_cons_of_mem e hf)
      · rw [if_neg (by simp), baseLen_empty]
        simp [sumSizes]
      · intro _
        have he : e.length + 17 ≤ mb := hper e (List.mem_cons_self e rest)
        rw [if_neg (by simp), baseLen_empty]
        omega
      · intro j cj hj
        by_cases hjlt : j < chunks.length
        · exact hprev j cj (by rwa [List.get?_append hjlt] at hj)
        · have hge : chunks.length ≤ j := Nat.le_of_not_lt hjlt
          rw [List.get?_append_right hge] at hj
          cases hk : j - chunks.length with
          | zero =>
            rw [hk] at hj
            simp only [List.get?] at hj
            cases hj
            have hb := hbound hcne
            by_cases hch : chunks = []
            · have hj0 : j = 0 := by
                have hl : chunks.length = 0 := by simp [hch]
                omega
              have hpay := dumpsChunkPayload_length_of_ne hdr current hcne
              rw [if_pos hch] at hsize hb
              rw [if_pos hj0, if_pos hj0]
              omega
            · have hlen : 0 < chunks.length := List.length_pos.mpr hch
              have hj0 : ¬ j = 0 := by omega
              have hpay := dumpsChunkPayload_length_of_ne "" current hcne
              rw [baseLen_empty] at hpay
              rw [if_neg hch] at hsize hb
              rw [if_neg hj0, if_neg hj0]
              omega
          | succ n =>
            rw [hk] at hj
            simp at hj
    · have hcond : current ≠ [] → ¬ (size + (e.length + 2) > mb) := by
        intro hcur hgt
        exact hc (by simp only [Bool.and_eq_true, decide_eq_true_eq]; exact ⟨hcur, hgt⟩)
      refine ih chunks (current ++ [e]) (size + (e.length + 2)) ?_ ?_ ?_ hprev i ce hget
      · intro f hf
        exact hper f (List.mem_cons_of_mem e hf)
      · rw [hsize, sumSizes_append]
        omega
      · intro _
        by_cases hcur : current = []
        · subst hcur
          have he : e.length + 17 ≤ mb := hper e (List.mem_cons_self e rest)
          have hbl : baseLen hdr = 15 + headerExtra hdr := baseLen_eq hdr
          rw [hsize]
          have hz : sumSizes ([] : List String) = 0 := rfl
          rw [hz]
          by_cases hch : chunks = []
          · rw [if_pos hch, if_pos hch]
            omega
          · rw [if_neg hch, if_neg hch]
            omega
        · have hle : ¬ (size + (e.length + 2) > mb) := hcond hcur
          have hb := hbound hcur
          omega

set_option maxRecDepth 100000 in
/-- Counterexample to claim C10: with `max_bytes = 200`, a 100-byte and a
300-byte serialized entry produce a second chunk holding the 300-byte entry
alone, whose JSON payload is 315 bytes — over `max_bytes`, and the header
allowance cannot excuse it since it is not the first chunk and the header is
empty. -/
theorem chunk_transcript_dump_oversized_entry_counterexample :
    (chunkEntryLists "" [entryShort, entryLong] 200).get? 1 = some [entryLong]
    ∧ (dumpsChunkPayload "" [entryLong]).length = 315
    ∧ 200 < 315 := by
  refine ⟨?_, ?_, by omega⟩ <;> decide

/-- Claim C10 (amended): for every dump and every `max_bytes ≥ 200`,
reassembling the chunks of `chunk_transcript_dump` in ascending order yields
exactly the original entry list with no entry split across chunks — this
holds unconditionally, oversized entries included; and PROVIDED every
entry's JSON fits the budget (`len(entry_json) + 17 ≤ max_bytes`), no
chunk's JSON payload exceeds `max_bytes` except that the first chunk may
additionally use the size of the serialized header fields; an entry alone
bigger than `max_bytes` makes its chunk exceed the limit, so the size bound
is conditional. Each emitted line is `TRANSCRIPT_DUMP|i/N|<json>`. -/
theorem chunk_transcript_dump_spec (hdr : String) (entries : List String) (mb : Nat)
    (hmb : 200 ≤ mb) :
    (chunkEntryLists hdr entries mb).join = entries
    ∧ ((∀ e ∈ entries, e.length + 17 ≤ mb) →
        ∀ i ce, (chunkEntryLists hdr entries mb).get? i = some ce →
          (dumpsChunkPayload (if i = 0 then hdr else "") ce).length
            ≤ mb + (if i = 0 then headerExtra hdr else 0))
    ∧ chunk_transcript_dump hdr entries mb =
        (chunkEntryLists hdr entries mb).enum.map (fun p =>
          "TRANSCRIPT_DUMP|" ++ toString (p.1 + 1) ++ "/"
            ++ toString (chunkEntryLists hdr entries mb).length ++ "|"
            ++ dumpsChunkPayload (if p.1 = 0 then hdr else "") p.2) := by
  refine ⟨?_, ?_, rfl⟩
  · unfold chunkEntryLists
    split_ifs with he
    · subst he; rfl
    · rw [chunkLoop_join]
      rfl
  · intro hent i ce hget
    unfold chunkEntryLists at hget
    split_ifs at hget with he
    · cases i with
      | zero =>
        simp only [List.get?] at hget
        cases hget
        rw [if_pos rfl, if_pos rfl, dumpsChunkPayload_length]
        rw [baseLen_eq]
        simp [joinCommaSpace, (show ("" : String).length = 0 from rfl)]
        omega
      | succ n =>
        simp at hget
    · refine chunkLoop_size_invariant mb hdr entries [] [] (baseLen hdr) hent ?_ ?_ ?_ i ce hget
      · simp [sumSizes]
      · intro hne
        exact absurd rfl hne
      · intro j cj hj
        simp at hj

/-- Witness for C10 (amended) on a concrete dump. -/
theorem chunk_transcript_dump_spec_witness :
    (chunkEntryLists headerSample entriesSample 200).join = entriesSample
    ∧ (dumpsChunkPayload headerSample entriesSample).length
        ≤ 200 + headerExtra headerSample := by
  have h := chunk_transcript_dump_spec headerSample entriesSample 200 (by decide)
  refine ⟨h.1, ?_⟩
  have h2 := h.2.1 (by decide) 0 entriesSample (by decide)
  simpa using h2

end Calllock
